import Mathlib

/-!
# Verification of the Ark backup control plane (shallow embedding)

This file embeds, in Lean 4, the parts of the Heptio Ark repository that the
frozen claims C1..C10 are about, and proves or refutes each claim.

The embedding follows the Go source closely:

* `pkg/restic/command.go` / `command_factory.go` → `restic.Command`,
  `restic.Command.StringSlice`, `restic.BackupCommand`, `restic.backupTagFlags`
* `pkg/cmd/server/server.go` (`applyConfigDefaults`) → `applyConfigDefaults`
* `pkg/cmd/cli/restic/init_repository.go` (`InitRepositoryOptions.Complete`)
  → `InitRepositoryOptions.complete`
* `pkg/controller/pod_volume_restore_controller.go` → `shouldProcessPVR`,
  `shouldEnqueuePVR`, `isPodWaiting`, `processRestore`
* `pkg/backup/item_backupper.go` → `backupItem`, `runActions`, `runAdditional`
  (the latter two bodies are the inlined loops of `executeActions`),
  `takePVSnapshot`
* `pkg/backup/tar_writer.go` → `TarWriterItemStorage.write`

Go maps are modelled as association lists (newest binding first) or as
`String → Option String` functions; Go's `error` as `Except String`;
machine times as `Nat` values read from a clock oracle.  External
collaborators (hook executor, custom actions, dynamic client, cloud
snapshot API, file system, randomness) are oracles supplied as plain data
or functions, so every definition is executable.
-/

/-! ## Restic command construction (`pkg/restic/command.go`, `command_factory.go`) -/

namespace restic

/-- `restic.Command` (command.go lines 26-34). -/
structure Command where
  baseName : String
  cmdName : String
  repoPre : String
  repo : String
  passwordFile : String
  args : List String
  extraFlags : List String

/-- `repoFlag` (command.go lines 66-68). -/
def repoFlag (pre repo : String) : String :=
  "--repo=" ++ pre ++ "/" ++ repo

/-- `passwordFlag` (command.go lines 70-72). -/
def passwordFlag (file : String) : String :=
  "--password-file=" ++ file

/-- `Command.StringSlice` (command.go lines 37-53). -/
def Command.StringSlice (c : Command) : List String :=
  (if c.baseName ≠ "" then [c.baseName] else ["/restic"])
    ++ [c.cmdName, repoFlag c.repoPre c.repo]
    ++ (if c.passwordFile ≠ "" then [passwordFlag c.passwordFile] else [])
    ++ c.args
    ++ c.extraFlags

/-- `backupTagFlags` (command_factory.go lines 20-26).  The Go map is
modelled as an association list; Go's map iteration order is abstracted as
the list order. -/
def backupTagFlags (tags : List (String × String)) : List String :=
  tags.map (fun kv => "--tag=" ++ kv.1 ++ "=" ++ kv.2)

/-- `BackupCommand` (command_factory.go lines 9-18). -/
def BackupCommand (repoPre repo passwordFile path : String)
    (tags : List (String × String)) : Command :=
  { baseName := ""
    cmdName := "backup"
    repoPre := repoPre
    repo := repo
    passwordFile := passwordFile
    args := [path]
    extraFlags := backupTagFlags tags }

end restic

/-- The tags map built for one pod volume by
`defaultItemBackupper.handleResticBackup` (item_backupper.go lines 351-358),
modelled as an association list in the order of the Go map literal. -/
def resticBackupTags (backupName podNs podName volumeName backupUID podUID : String) :
    List (String × String) :=
  [("backup", backupName),
   ("ns", podNs),
   ("pod", podName),
   ("volume", volumeName),
   ("backup-uid", backupUID),
   ("pod-uid", podUID)]

/-! ## Server config defaults (`pkg/cmd/server/server.go`) -/

/-- `defaultGCSyncPeriod = 60 * time.Minute`, in nanoseconds. -/
def defaultGCSyncPeriod : Nat := 60 * 60 * 1000000000

/-- `defaultBackupSyncPeriod = 60 * time.Minute`, in nanoseconds. -/
def defaultBackupSyncPeriod : Nat := 60 * 60 * 1000000000

/-- `defaultScheduleSyncPeriod = time.Minute`, in nanoseconds. -/
def defaultScheduleSyncPeriod : Nat := 60 * 1000000000

/-- `defaultResourcePriorities` (server.go). -/
def defaultResourcePriorities : List String :=
  ["namespaces", "persistentvolumes", "persistentvolumeclaims", "secrets",
   "configmaps", "serviceaccounts", "limitranges", "pods"]

/-- The fields of `api.Config` that `applyConfigDefaults` touches.  Durations
are nanosecond counts; the provider config map is `none` when the Go map is
nil, otherwise a lookup function. -/
structure ArkConfig where
  gcSyncPeriod : Nat
  backupSyncPeriod : Nat
  scheduleSyncPeriod : Nat
  resourcePriorities : List String
  bspBucket : String
  bspConfig : Option (String → Option String)

/-- `applyConfigDefaults` (server.go lines 405-433).  The Go function mutates
its argument field by field; the statements are independent, so the result
is written as one record: each zero sync period is defaulted, empty
priorities are defaulted, a nil provider config map is replaced by an empty
one, and `config["bucket"]` is assigned the bucket name. -/
def applyConfigDefaults (c : ArkConfig) : ArkConfig :=
  { gcSyncPeriod := if c.gcSyncPeriod = 0 then defaultGCSyncPeriod else c.gcSyncPeriod
    backupSyncPeriod :=
      if c.backupSyncPeriod = 0 then defaultBackupSyncPeriod else c.backupSyncPeriod
    scheduleSyncPeriod :=
      if c.scheduleSyncPeriod = 0 then defaultScheduleSyncPeriod else c.scheduleSyncPeriod
    resourcePriorities :=
      if c.resourcePriorities.length = 0 then defaultResourcePriorities
      else c.resourcePriorities
    bspBucket := c.bspBucket
    bspConfig :=
      some (fun k =>
        if k = "bucket" then some c.bspBucket
        else
          match c.bspConfig with
          | none => none
          | some m => m k) }

/-- Lookup in the (possibly nil) provider config map: a nil Go map reads as
empty. -/
def ArkConfig.configLookup (c : ArkConfig) (k : String) : Option String :=
  match c.bspConfig with
  | none => none
  | some m => m k

/-! ## `ark restic init-repository` CLI (`pkg/cmd/cli/restic/init_repository.go`) -/

/-- `InitRepositoryOptions` (init_repository.go lines 868-876).  `keyBytes`
is the private `keyBytes []byte` field; bytes are `Nat`s. -/
structure InitRepositoryOptions where
  ns : String
  keyFile : String
  keyData : String
  keySize : Int
  keyBytes : List Nat
deriving DecidableEq, Repr

/-- Oracles for `Complete`: the client factory's namespace, the file system
read, and the random source (`rand.Read` filling byte `i` with
`randByteAt i`). -/
structure InitRepoEnv where
  factoryNs : String
  readFile : String → Except String (List Nat)
  randByteAt : Nat → Nat

/-- The `KeySize` random bytes produced by `make([]byte, KeySize)` followed
by `rand.Read` (init_repository.go lines 910-912). -/
def InitRepoEnv.randBytes (env : InitRepoEnv) (n : Nat) : List Nat :=
  (List.range n).map env.randByteAt

/-- `InitRepositoryOptions.Complete` (init_repository.go lines 890-916).
Go's `make([]byte, n)` panics for negative `n`; the panic is modelled as an
error result. -/
def InitRepositoryOptions.complete (env : InitRepoEnv) (o : InitRepositoryOptions) :
    Except String InitRepositoryOptions :=
  if o.keyFile ≠ "" ∧ o.keyData ≠ "" then
    Except.error "only one of --key-file and --key-data may be specified"
  else if o.keyFile = "" ∧ o.keyData = "" ∧ o.keySize < 1 then
    Except.error "--key-size must be at least 1"
  else
    let o := { o with ns := env.factoryNs }
    match (if o.keyFile ≠ "" then
             (env.readFile o.keyFile).map (fun data => { o with keyBytes := data })
           else Except.ok o) with
    | Except.error e => Except.error e
    | Except.ok o =>
      if o.keyData.length = 0 then
        if o.keySize < 0 then Except.error "runtime: makeslice: len out of range"
        else Except.ok { o with keyBytes := env.randBytes o.keySize.toNat }
      else Except.ok o

/-! ## Pod volume restore controller (`pkg/controller/pod_volume_restore_controller.go`) -/

/-- Phase string constants of `arkv1api.PodVolumeRestorePhase*`. -/
def phaseNew : String := "New"

/-- `PodVolumeRestorePhaseInProgress`. -/
def phaseInProgress : String := "InProgress"

/-- `PodVolumeRestorePhaseCompleted`. -/
def phaseCompleted : String := "Completed"

/-- `PodVolumeRestorePhaseFailed`. -/
def phaseFailed : String := "Failed"

/-- Modelled from the spec: the name of the restic init container
(`restic.InitContainer`, whose defining file is not under src/); the
controller only compares it for equality, so the exact string is
inessential. -/
def resticInitContainer : String := "restic-wait"

/-- The parts of a `corev1api.Pod` that `shouldProcessPod`/`isPodWaiting`
read: the scheduled node, the init container names (spec), and whether each
init container status has a running state. -/
structure PodModel where
  nodeName : String
  initContainerNames : List String
  initContainerRunning : List Bool
deriving DecidableEq, Repr

/-- `isPodWaiting` (pod_volume_restore_controller.go lines 216-221). -/
def isPodWaiting (p : PodModel) : Bool :=
  p.initContainerNames.length = 0
    || p.initContainerNames.headD "" ≠ resticInitContainer
    || p.initContainerRunning.length = 0
    || !(p.initContainerRunning.headD false)

/-- `shouldProcessPod` (pod_volume_restore_controller.go lines 145-159). -/
def shouldProcessPod (pod : PodModel) (nodeName : String) : Bool :=
  if pod.nodeName ≠ nodeName then false
  else if !(isPodWaiting pod) then false
  else true

/-- `shouldProcessPVR` (pod_volume_restore_controller.go lines 161-169):
only items whose phase is empty or `New` are processed. -/
def shouldProcessPVR (phase : String) : Bool :=
  if phase ≠ "" ∧ phase ≠ phaseNew then false else true

/-- `shouldEnqueuePVR` (pod_volume_restore_controller.go lines 198-214).
`podRes` is the pod lister's answer for the item's pod. -/
def shouldEnqueuePVR (phase : String) (podRes : Except String PodModel)
    (nodeName : String) : Bool :=
  if !(shouldProcessPVR phase) then false
  else
    match podRes with
    | Except.error _ => false
    | Except.ok pod => if !(shouldProcessPod pod nodeName) then false else true

/-- One JSON merge patch applied to a PodVolumeRestore's status by
`patchPodVolumeRestore`: the new phase, and the message set by `fail`. -/
structure PVRPatch where
  phase : String
  message : Option String
deriving DecidableEq, Repr

/-- Oracles for one `processRestore` run: the outcome of each patch call
(`none` = success, `some e` = client error), of the pod lookup, the volume
directory resolution, the temp credentials file creation, and the two
subprocess runs (whose errors carry `(stderr, error message)`). -/
structure PVREnv where
  patch1 : Option String
  patch2 : Option String
  getPod : Except String Unit
  getVolumeDir : Except String String
  tempCreds : Except String String
  resticRun : Except (String × String) String
  completeRun : Except (String × String) String

/-- `podVolumeRestoreController.fail` (pod_volume_restore_controller.go
lines 361-370): patch the item to `Failed` with a message; return nil when
the patch succeeds. -/
def pvrFail (env : PVREnv) (applied : List PVRPatch) (msg : String) :
    Except String Unit × List PVRPatch :=
  match env.patch2 with
  | some e => (Except.error e, applied)
  | none => (Except.ok (), applied ++ [⟨phaseFailed, some msg⟩])

/-- `podVolumeRestoreController.processRestore` (pod_volume_restore_controller.go
lines 246-330).  Returns the function's error result together with the
sequence of status patches applied.  Command construction
(`restic.RestoreCommand`, `/complete-restore.sh`) is kept abstract: only the
subprocess outcomes matter for the status machine. -/
def processRestore (env : PVREnv) : Except String Unit × List PVRPatch :=
  match env.patch1 with
  | some e => (Except.error e, [])
  | none =>
    let applied : List PVRPatch := [⟨phaseInProgress, none⟩]
    match env.getPod with
    | Except.error e => pvrFail env applied ("error getting pod: " ++ e)
    | Except.ok _ =>
      match env.getVolumeDir with
      | Except.error e => pvrFail env applied ("error getting volume directory name: " ++ e)
      | Except.ok _ =>
        match env.tempCreds with
        | Except.error e => pvrFail env applied ("error creating temp restic credentials file: " ++ e)
        | Except.ok _ =>
          match env.resticRun with
          | Except.error se =>
              pvrFail env applied
                ("error running restic restore, stderr=" ++ se.1 ++ ": " ++ se.2)
          | Except.ok _ =>
            match env.completeRun with
            | Except.error se =>
                pvrFail env applied
                  ("error running restic restore: " ++ se.2 ++ ": stderr=" ++ se.1)
            | Except.ok _ =>
              match env.patch2 with
              | some e => (Except.error e, applied)
              | none => (Except.ok (), applied ++ [⟨phaseCompleted, none⟩])

/-- All five fallible steps of `processRestore` succeed. -/
def pvrStepsOk (env : PVREnv) : Bool :=
  env.getPod.isOk && env.getVolumeDir.isOk && env.tempCreds.isOk
    && env.resticRun.isOk && env.completeRun.isOk

/-! ## Backup pipeline (`pkg/backup/item_backupper.go`, `tar_writer.go`) -/

/-- `itemKey` (backup.go lines 566-570): resource string, namespace, name. -/
structure ItemKey where
  resource : String
  ns : String
  name : String
deriving DecidableEq, Repr

/-- The fields of `tar.Header` set by the backup pipeline.  `typeflag` is the
byte value (`tar.TypeReg = '0' = 48`); `mode` the permission bits; `modTime`
a clock reading. -/
structure TarHeader where
  name : String
  size : Nat
  typeflag : Nat
  mode : Nat
  modTime : Nat
deriving DecidableEq, Repr

/-- `tar.TypeReg` is the ASCII byte '0'. -/
def tarTypeReg : Nat := 48

/-- One tar entry written for a backed-up item, together with the
(resource, namespace, name) key of the item it serializes. -/
structure TarEntry where
  key : ItemKey
  hdr : TarHeader
  data : String
deriving DecidableEq, Repr

/-- `api.VolumeBackupInfo`: snapshot ID, volume type, IOPS (optional),
availability zone. -/
structure VolumeBackupInfo where
  snapshotID : String
  volumeType : String
  iops : Option Int
  availabilityZone : String
deriving DecidableEq, Repr

/-- The mutable state threaded through one backup run: the dedup set
`backedUpItems`, the tar entries written so far, the backup status's
`VolumeBackups` map (`none` = nil Go map; association list, newest first),
and a tick counter driving the `time.Now()` clock oracle. -/
structure BackupSt where
  backedUpItems : List ItemKey
  entries : List TarEntry
  volumeBackups : Option (List (String × VolumeBackupInfo))
  tick : Nat
deriving DecidableEq, Repr

/-- The empty state at the start of `kubernetesBackupper.Backup`
(backup.go line 745: `backedUpItems := make(map[itemKey]struct{})`). -/
def initialBackupSt : BackupSt :=
  { backedUpItems := [], entries := [], volumeBackups := none, tick := 0 }

/-- The outcome of one `action.Execute` call (item_backupper.go line 259),
supplied by the environment: either an error, or a list of fetch results for
the additional item identifiers (each `Except.error` models a failing
discovery/client/Get step, each `Except.ok` the fetched item). -/
inductive ActionOut (α : Type) : Type where
  | fails (msg : String) : ActionOut α
  | done (additional : List (Except String α)) : ActionOut α

/-- One item to back up, bundled with the environment's responses for it:
metadata (namespace, name, labels), the group resource it was fetched under,
its serialized content, the pre/post hook outcomes (`some msg` = hook error),
and the `Execute` outcomes consumed, in order, by the matching custom
actions. -/
inductive ItemTree : Type where
  | node (ns name gr content : String)
      (labels : List (String × String))
      (preErr postErr : Option String)
      (acts : List (ActionOut ItemTree)) : ItemTree

/-- Namespace of an item (`metadata.GetNamespace()`). -/
def ItemTree.nsOf : ItemTree → String
  | .node ns _ _ _ _ _ _ _ => ns

/-- Name of an item (`metadata.GetName()`). -/
def ItemTree.nameOf : ItemTree → String
  | .node _ name _ _ _ _ _ _ => name

/-- The group resource an item resolves to (for additional items, the result
of `discoveryHelper.ResourceFor`; item_backupper.go line 263). -/
def ItemTree.grOf : ItemTree → String
  | .node _ _ gr _ _ _ _ _ => gr

/-- Serialized content of an item (`json.Marshal(obj.UnstructuredContent())`). -/
def ItemTree.contentOf : ItemTree → String
  | .node _ _ _ content _ _ _ _ => content

/-- Labels of an item (`metadata.GetLabels()`). -/
def ItemTree.labelsOf : ItemTree → List (String × String)
  | .node _ _ _ _ labels _ _ _ => labels

/-- Pre-hook outcome for an item (`some msg` = the pre hook handler returned
an error). -/
def ItemTree.preErrOf : ItemTree → Option String
  | .node _ _ _ _ _ preErr _ _ => preErr

/-- Post-hook outcome for an item. -/
def ItemTree.postErrOf : ItemTree → Option String
  | .node _ _ _ _ _ _ postErr _ => postErr

/-- The `Execute` outcomes for the item's matching actions. -/
def ItemTree.actsOf : ItemTree → List (ActionOut ItemTree)
  | .node _ _ _ _ _ _ _ acts => acts

/-- `resolvedAction` (backup.go lines 572-578): the action's resource and
namespace include/exclude predicates and its label selector, abstracted as
boolean predicates (the `collections` package is not under src/; only
`ShouldInclude`/`Matches` results are observed). -/
structure RAction where
  resShouldInclude : String → Bool
  nsShouldInclude : String → Bool
  selMatches : List (String × String) → Bool

/-- `cloudprovider.SnapshotService` as used by `takePVSnapshot`: volume-ID
derivation, snapshot creation (volumeID, zone, tags), and volume info
(type, IOPS). -/
structure SnapshotSvc where
  getVolumeID : ItemTree → Except String String
  createSnapshot : String → String → List (String × String) → Except String String
  getVolumeInfo : String → String → Except String (String × Option Int)

/-- The read-only context of one backup run (`backupContext` plus the fields
of the `api.Backup` spec that `backupItem`/`takePVSnapshot` read).  The
namespace and resource `IncludesExcludes` are abstracted as predicates;
`timeAt` is the `time.Now()` oracle, indexed by the state's tick counter. -/
structure BackupCtx where
  backupName : String
  nsShouldInclude : String → Bool
  resShouldInclude : String → Bool
  includeClusterResources : Option Bool
  snapshotVolumes : Option Bool
  actions : List RAction
  snapshotSvc : Option SnapshotSvc
  timeAt : Nat → Nat

/-- Go map indexing with the zero-value default: `labels[k]` is `""` when
absent. -/
def lookupLabel (labels : List (String × String)) (k : String) : String :=
  match labels.find? (fun p => p.1 = k) with
  | some p => p.2
  | none => ""

/-- `zoneLabel` (item_backupper.go line 435). -/
def zoneLabel : String := "failure-domain.beta.kubernetes.io/zone"

/-- The provider tags passed to `CreateSnapshot`
(item_backupper.go lines 474-477), in Go map literal order. -/
def pvTags (backupName pvName : String) : List (String × String) :=
  [("ark.heptio.com/backup", backupName), ("ark.heptio.com/pv", pvName)]

/-- `defaultItemBackupper.takePVSnapshot` (item_backupper.go lines 440-505).
On success it records the `VolumeBackupInfo` under the PV's name in the
backup status (creating the map if nil); every error path leaves the state
untouched. -/
def takePVSnapshot (svc : SnapshotSvc) (snapshotVolumes : Option Bool)
    (backupName : String) (pv : ItemTree) (st : BackupSt) :
    Except String Unit × BackupSt :=
  if snapshotVolumes = some false then (Except.ok (), st)
  else
    let name := pv.nameOf
    let zone := lookupLabel pv.labelsOf zoneLabel
    match svc.getVolumeID pv with
    | Except.error e =>
        (Except.error ("error getting volume ID for PersistentVolume: " ++ e), st)
    | Except.ok volumeID =>
      if volumeID = "" then (Except.ok (), st)
      else
        match svc.createSnapshot volumeID zone (pvTags backupName name) with
        | Except.error e => (Except.error ("error creating snapshot: " ++ e), st)
        | Except.ok snapshotID =>
          match svc.getVolumeInfo volumeID zone with
          | Except.error e => (Except.error ("error getting volume info: " ++ e), st)
          | Except.ok info =>
            let m := st.volumeBackups.getD []
            let info' : VolumeBackupInfo := ⟨snapshotID, info.1, info.2, zone⟩
            (Except.ok (), { st with volumeBackups := some ((name, info') :: m) })

/-- The archive path of an item's tar entry (item_backupper.go lines
205-210): `resources/<groupResource>/namespaces/<ns>/<name>.json` when
namespaced, `resources/<groupResource>/cluster/<name>.json` otherwise. -/
def entryPath (k : ItemKey) : String :=
  if k.ns ≠ "" then
    "resources/" ++ k.resource ++ "/namespaces/" ++ k.ns ++ "/" ++ k.name ++ ".json"
  else
    "resources/" ++ k.resource ++ "/cluster/" ++ k.name ++ ".json"

/-- The persistent-volume snapshot block of `backupItem`
(item_backupper.go lines 186-194): when the item is a PersistentVolume and a
snapshot service is configured, run `takePVSnapshot` and append its error,
if any, to the accumulated per-item errors. -/
def pvPhase (ctx : BackupCtx) (gr : String) (item : ItemTree)
    (stErrs : BackupSt × List String) : BackupSt × List String :=
  if gr = "persistentvolumes" then
    match ctx.snapshotSvc with
    | none => stErrs
    | some svc =>
      match takePVSnapshot svc ctx.snapshotVolumes ctx.backupName item stErrs.1 with
      | (Except.error e, st') => (st', stErrs.2 ++ [e])
      | (Except.ok _, st') => (st', stErrs.2)
  else stErrs

mutual

/-- `defaultItemBackupper.backupItem` (item_backupper.go lines 127-234).
The fuel argument only bounds the custom-action recursion depth (the Go
code recurses through `additionalItemBackupper.backupItem`); it is
decremented on every call and exhausting it returns an error without
touching the state. -/
def backupItem (ctx : BackupCtx) :
    Nat → ItemTree → String → BackupSt → Except String Unit × BackupSt
  | 0, _, _, st => (Except.error "recursion limit", st)
  | fuel+1, item, gr, st =>
    let ns := item.nsOf
    let name := item.nameOf
    if ns ≠ "" ∧ ctx.nsShouldInclude ns = false then (Except.ok (), st)
    else if ns = "" ∧ gr ≠ "namespaces" ∧ ctx.includeClusterResources = some false then
      (Except.ok (), st)
    else if ctx.resShouldInclude gr = false then (Except.ok (), st)
    else
      let key : ItemKey := ⟨gr, ns, name⟩
      if key ∈ st.backedUpItems then (Except.ok (), st)
      else
        let st1 := { st with backedUpItems := key :: st.backedUpItems }
        match item.preErrOf with
        | some msg => (Except.error msg, st1)
        | none =>
          let ar := runActions ctx fuel ctx.actions item.actsOf gr ns name item.labelsOf st1
          let errs1 : List String :=
            match ar.1 with
            | Except.error e => [e]
            | Except.ok _ => []
          let pr := pvPhase ctx gr item (ar.2, errs1)
          let errs3 : List String :=
            match item.postErrOf with
            | some msg => pr.2 ++ [msg]
            | none => pr.2
          if errs3 ≠ [] then (Except.error (String.intercalate ", " errs3), pr.1)
          else
            let content := item.contentOf
            let hdr : TarHeader :=
              { name := entryPath key, size := content.length, typeflag := tarTypeReg,
                mode := 0o755, modTime := ctx.timeAt pr.1.tick }
            (Except.ok (),
             { pr.1 with
                 entries := pr.1.entries ++ [⟨key, hdr, content⟩],
                 tick := pr.1.tick + 1 })

/-- The loop of `defaultItemBackupper.executeActions`
(item_backupper.go lines 236-293) over the resolved actions: non-matching
actions are skipped; for a matching action the next `Execute` outcome is
consumed (an exhausted outcome list reads as success with no additional
items); an `Execute` error aborts with the wrapped error; otherwise the
additional items are backed up recursively before the remaining actions
run. -/
def runActions (ctx : BackupCtx) :
    Nat → List RAction → List (ActionOut ItemTree) → String → String → String →
    List (String × String) → BackupSt → Except String Unit × BackupSt
  | 0, _, _, _, _, _, _, st => (Except.error "recursion limit", st)
  | _+1, [], _, _, _, _, _, st => (Except.ok (), st)
  | fuel+1, act :: rest, outs, gr, ns, name, labels, st =>
    if act.resShouldInclude gr = false then
      runActions ctx fuel rest outs gr ns name labels st
    else if ns ≠ "" ∧ act.nsShouldInclude ns = false then
      runActions ctx fuel rest outs gr ns name labels st
    else if act.selMatches labels = false then
      runActions ctx fuel rest outs gr ns name labels st
    else
      match outs with
      | [] => runActions ctx fuel rest [] gr ns name labels st
      | out :: outsRest =>
        match out with
        | ActionOut.fails msg =>
            (Except.error
              ("error executing custom action (groupResource=" ++ gr ++ ", namespace=" ++ ns
                ++ ", name=" ++ name ++ "): " ++ msg), st)
        | ActionOut.done additional =>
          match runAdditional ctx fuel additional st with
          | (Except.error e, st') => (Except.error e, st')
          | (Except.ok _, st') => runActions ctx fuel rest outsRest gr ns name labels st'

/-- The additional-item loop inside `executeActions`
(item_backupper.go lines 262-281): each additional item is fetched (a
failing discovery/client/Get step aborts with its error) and recursively
backed up through `additionalItemBackupper.backupItem`; a recursive error
aborts the loop. -/
def runAdditional (ctx : BackupCtx) :
    Nat → List (Except String ItemTree) → BackupSt → Except String Unit × BackupSt
  | 0, _, st => (Except.error "recursion limit", st)
  | _+1, [], st => (Except.ok (), st)
  | fuel+1, fetch :: rest, st =>
    match fetch with
    | Except.error e => (Except.error e, st)
    | Except.ok sub =>
      match backupItem ctx fuel sub sub.grOf st with
      | (Except.error e, st') => (Except.error e, st')
      | (Except.ok _, st') => runAdditional ctx fuel rest st'

end

/-- Modelled from the spec: the group/resource walker
(`group_backupper.go`/`resource_backupper.go`, not under src/) invokes
`backupItem` once per listed item and, per §4.2 of the spec ("Errors are
aggregated, not fatal per-item"), records each item's error and continues
with the remaining items; `kubernetesBackupper.Backup` (backup.go lines
774-788, under src/) aggregates the collected errors.  Returns the
collected per-item error messages and the final state. -/
def backupAllItems (ctx : BackupCtx) (fuel : Nat) :
    List (ItemTree × String) → BackupSt → List String × BackupSt
  | [], st => ([], st)
  | (item, gr) :: rest, st =>
    let r := backupItem ctx fuel item gr st
    let rest' := backupAllItems ctx fuel rest r.2
    ((match r.1 with
      | Except.error e => e :: rest'.1
      | Except.ok _ => rest'.1), rest'.2)

/-- `tarWriterItemStorage` (tar_writer.go lines 33-36): a tar sink carrying
one fixed modification time. -/
structure TarWriterItemStorage where
  modTime : Nat

/-- `tarWriterItemStorage.Write` (tar_writer.go lines 38-56): the header it
writes for `(path, item)`. -/
def TarWriterItemStorage.write (t : TarWriterItemStorage) (path : String) (item : String) :
    TarHeader :=
  { name := path, size := item.length, typeflag := tarTypeReg, mode := 0o755,
    modTime := t.modTime }

/-! ## Theorems -/

/-- C8: every restic invocation built by `Command.StringSlice` is the base
binary (default `/restic`), the subcommand, `--repo=<repoPrefix>/<repo>`,
then `--password-file=<file>` when a password file is set, then the
positional args, then the extra flags; `BackupCommand` appends one
`--tag=<k>=<v>` flag per entry of its tags map, and the tags attached for a
pod-volume backup include `backup-uid`, `pod-uid`, and `volume`. -/
theorem C8_restic_command_shape (c : restic.Command)
    (repoPre repo passwordFile path : String) (tags : List (String × String))
    (backupName podNs podName volumeName backupUID podUID : String) :
    c.StringSlice =
      (if c.baseName = "" then ["/restic"] else [c.baseName])
        ++ [c.cmdName, "--repo=" ++ c.repoPre ++ "/" ++ c.repo]
        ++ (if c.passwordFile = "" then [] else ["--password-file=" ++ c.passwordFile])
        ++ c.args ++ c.extraFlags
    ∧ (restic.BackupCommand repoPre repo passwordFile path tags).extraFlags
        = tags.map (fun kv => "--tag=" ++ kv.1 ++ "=" ++ kv.2)
    ∧ (restic.BackupCommand repoPre repo passwordFile path tags).args = [path]
    ∧ (restic.BackupCommand repoPre repo passwordFile path tags).cmdName = "backup"
    ∧ ("backup-uid", backupUID)
        ∈ resticBackupTags backupName podNs podName volumeName backupUID podUID
    ∧ ("pod-uid", podUID)
        ∈ resticBackupTags backupName podNs podName volumeName backupUID podUID
    ∧ ("volume", volumeName)
        ∈ resticBackupTags backupName podNs podName volumeName backupUID podUID := by
  refine ⟨?_, rfl, rfl, rfl, ?_, ?_, ?_⟩
  · by_cases hb : c.baseName = "" <;> by_cases hp : c.passwordFile = "" <;>
      simp [restic.Command.StringSlice, restic.repoFlag, restic.passwordFlag, hb, hp]
  · simp [resticBackupTags]
  · simp [resticBackupTags]
  · simp [resticBackupTags]

/-- C9: after `applyConfigDefaults`, the object-store config map is non-nil
and maps `"bucket"` to the configured bucket while every other key reads as
before; each sync period is defaulted (60m, 60m, 1m) exactly when zero, and
the resource priorities are defaulted exactly when empty. -/
theorem C9_applyConfigDefaults (c : ArkConfig) :
    (applyConfigDefaults c).bspConfig ≠ none
    ∧ (applyConfigDefaults c).configLookup "bucket" = some c.bspBucket
    ∧ (∀ k, k ≠ "bucket" → (applyConfigDefaults c).configLookup k = c.configLookup k)
    ∧ (applyConfigDefaults c).gcSyncPeriod
        = (if c.gcSyncPeriod = 0 then defaultGCSyncPeriod else c.gcSyncPeriod)
    ∧ (applyConfigDefaults c).backupSyncPeriod
        = (if c.backupSyncPeriod = 0 then defaultBackupSyncPeriod else c.backupSyncPeriod)
    ∧ (applyConfigDefaults c).scheduleSyncPeriod
        = (if c.scheduleSyncPeriod = 0 then defaultScheduleSyncPeriod else c.scheduleSyncPeriod)
    ∧ (applyConfigDefaults c).resourcePriorities
        = (if c.resourcePriorities = [] then defaultResourcePriorities else c.resourcePriorities)
    ∧ (applyConfigDefaults c).bspBucket = c.bspBucket := by
  refine ⟨?_, ?_, ?_, rfl, rfl, rfl, ?_, rfl⟩
  · simp [applyConfigDefaults]
  · simp [applyConfigDefaults, ArkConfig.configLookup]
  · intro k hk
    cases hcfg : c.bspConfig <;>
      simp [applyConfigDefaults, ArkConfig.configLookup, hk, hcfg]
  · simp only [applyConfigDefaults]
    rcases hrp : c.resourcePriorities with _ | ⟨hd, tl⟩ <;> simp [hrp]

/-- Concrete config for the C9 witness: nonzero GC period, zero backup sync
period, a provider map holding a region key. -/
def cfgC9 : ArkConfig :=
  { gcSyncPeriod := 5
    backupSyncPeriod := 0
    scheduleSyncPeriod := 7
    resourcePriorities := ["pods"]
    bspBucket := "my-bucket"
    bspConfig := some (fun k => if k = "region" then some "us-east-1" else none) }

/-- Witness for C9 at `cfgC9`: the bucket key is set, the pre-existing
`region` key is untouched, the zero backup sync period is defaulted and the
nonzero GC period kept. -/
theorem C9_applyConfigDefaults_witness :
    (applyConfigDefaults cfgC9).configLookup "bucket" = some "my-bucket"
    ∧ (applyConfigDefaults cfgC9).configLookup "region" = cfgC9.configLookup "region"
    ∧ (applyConfigDefaults cfgC9).backupSyncPeriod
        = (if cfgC9.backupSyncPeriod = 0 then defaultBackupSyncPeriod else cfgC9.backupSyncPeriod)
    ∧ (applyConfigDefaults cfgC9).gcSyncPeriod
        = (if cfgC9.gcSyncPeriod = 0 then defaultGCSyncPeriod else cfgC9.gcSyncPeriod) :=
  ⟨(C9_applyConfigDefaults cfgC9).2.1,
   (C9_applyConfigDefaults cfgC9).2.2.1 "region" (by decide),
   (C9_applyConfigDefaults cfgC9).2.2.2.2.1,
   (C9_applyConfigDefaults cfgC9).2.2.2.1⟩

/-- C10: `InitRepositoryOptions.Complete` errors when both `--key-file` and
`--key-data` are given, errors when neither is given and the key size is
below 1, and in every successful run with empty `KeyData` — including ones
where `KeyFile` was read — the key bytes end up as `KeySize` freshly
generated random bytes, so file contents are overwritten and never used. -/
theorem C10_initRepository_complete (env : InitRepoEnv) (o : InitRepositoryOptions) :
    (o.keyFile ≠ "" → o.keyData ≠ "" →
      o.complete env = Except.error "only one of --key-file and --key-data may be specified")
    ∧ (o.keyFile = "" → o.keyData = "" → o.keySize < 1 →
      o.complete env = Except.error "--key-size must be at least 1")
    ∧ (∀ o', o.keyData = "" → o.complete env = Except.ok o' →
        o'.keyBytes = env.randBytes o.keySize.toNat
        ∧ o'.keyBytes.length = o.keySize.toNat) := by
  refine ⟨?_, ?_, ?_⟩
  · intro h1 h2
    simp [InitRepositoryOptions.complete, h1, h2]
  · intro h1 h2 h3
    simp [InitRepositoryOptions.complete, h1, h2, h3]
  · intro o' hdata hok
    have hlen : o.keyData.length = 0 := by rw [hdata]; rfl
    by_cases hf : o.keyFile = ""
    · by_cases hs1 : o.keySize < 1
      · simp [InitRepositoryOptions.complete, hf, hdata, hs1] at hok
      · have hs0 : ¬o.keySize < 0 := by omega
        simp [InitRepositoryOptions.complete, hf, hdata, hlen, hs1, hs0] at hok
        rw [← hok]
        exact ⟨rfl, by simp [InitRepoEnv.randBytes]⟩
    · rcases hrf2 : env.readFile o.keyFile with e | d
      · simp [InitRepositoryOptions.complete, Except.map, hf, hdata, hrf2] at hok
      · by_cases hs0 : o.keySize < 0
        · simp [InitRepositoryOptions.complete, Except.map, hf, hdata, hlen, hrf2, hs0] at hok
        · simp [InitRepositoryOptions.complete, Except.map, hf, hdata, hlen, hrf2, hs0] at hok
          rw [← hok]
          exact ⟨rfl, by simp [InitRepoEnv.randBytes]⟩

/-- Concrete environment for the C10 witness: the file read succeeds with
bytes `[9, 9]`, the random source yields byte `i` at position `i`. -/
def envC10 : InitRepoEnv :=
  { factoryNs := "heptio-ark"
    readFile := fun _ => Except.ok [9, 9]
    randByteAt := fun i => i }

/-- Concrete options for the C10 witness: a key file is given, no key data,
key size 4. -/
def optC10 : InitRepositoryOptions :=
  { ns := "", keyFile := "/tmp/key", keyData := "", keySize := 4, keyBytes := [] }

/-- The result `Complete` produces for `envC10`/`optC10`: the file bytes
`[9, 9]` were overwritten by the 4 generated bytes. -/
def optC10done : InitRepositoryOptions :=
  { ns := "heptio-ark", keyFile := "/tmp/key", keyData := "", keySize := 4,
    keyBytes := [0, 1, 2, 3] }

/-- Witness for C10: on `envC10`/`optC10` (key file set, no key data) the
completed options carry the 4 freshly generated bytes, not the file's. -/
theorem C10_initRepository_complete_witness :
    optC10done.keyBytes = envC10.randBytes (Int.toNat 4)
    ∧ optC10done.keyBytes.length = Int.toNat 4 :=
  (C10_initRepository_complete envC10 optC10).2.2 optC10done rfl rfl

/-- C7: a PodVolumeRestore only advances New → InProgress → one of
{Completed, Failed}: an item whose phase is neither empty nor New is never
considered for processing or enqueueing, and (with a reachable patch client)
`processRestore` first patches the phase to InProgress and then patches
Completed exactly when the pod lookup, volume directory resolution,
credentials file creation and both subprocess steps all succeed, and Failed
with a message otherwise. -/
theorem C7_pvr_phase_machine :
    (∀ phase : String, phase ≠ "" → phase ≠ phaseNew →
      shouldProcessPVR phase = false
      ∧ ∀ (podRes : Except String PodModel) (nodeName : String),
          shouldEnqueuePVR phase podRes nodeName = false)
    ∧ (∀ env : PVREnv, env.patch1 = none → env.patch2 = none →
      ((processRestore env).2.map PVRPatch.phase = [phaseInProgress, phaseCompleted]
        ∨ ∃ m, (processRestore env).2
            = [⟨phaseInProgress, none⟩, ⟨phaseFailed, some m⟩])
      ∧ (pvrStepsOk env = true ↔
          (processRestore env).2.map PVRPatch.phase = [phaseInProgress, phaseCompleted])) := by
  constructor
  · intro phase h1 h2
    constructor
    · simp [shouldProcessPVR, h1, h2]
    · intro podRes nodeName
      simp [shouldEnqueuePVR, shouldProcessPVR, h1, h2]
  · intro env h1 h2
    obtain ⟨p1, p2, gp, gv, tc, rr, cr⟩ := env
    simp only at h1 h2
    subst h1; subst h2
    cases gp with
    | error e =>
        refine ⟨Or.inr ⟨"error getting pod: " ++ e, ?_⟩, ?_⟩ <;>
          simp [processRestore, pvrFail, pvrStepsOk, Except.isOk, Except.toBool, phaseFailed,
            phaseInProgress, phaseCompleted]
    | ok u =>
      cases gv with
      | error e =>
          refine ⟨Or.inr ⟨"error getting volume directory name: " ++ e, ?_⟩, ?_⟩ <;>
            simp [processRestore, pvrFail, pvrStepsOk, Except.isOk, Except.toBool, phaseFailed,
              phaseInProgress, phaseCompleted]
      | ok v =>
        cases tc with
        | error e =>
            refine ⟨Or.inr ⟨"error creating temp restic credentials file: " ++ e, ?_⟩, ?_⟩ <;>
              simp [processRestore, pvrFail, pvrStepsOk, Except.isOk, Except.toBool, phaseFailed,
                phaseInProgress, phaseCompleted]
        | ok w =>
          cases rr with
          | error e =>
              refine ⟨Or.inr ⟨"error running restic restore, stderr=" ++ e.1 ++ ": " ++ e.2, ?_⟩, ?_⟩ <;>
                simp [processRestore, pvrFail, pvrStepsOk, Except.isOk, Except.toBool, phaseFailed,
                  phaseInProgress, phaseCompleted]
          | ok x =>
            cases cr with
            | error e =>
                refine ⟨Or.inr ⟨"error running restic restore: " ++ e.2 ++ ": stderr=" ++ e.1, ?_⟩, ?_⟩ <;>
                  simp [processRestore, pvrFail, pvrStepsOk, Except.isOk, Except.toBool, phaseFailed,
                    phaseInProgress, phaseCompleted]
            | ok y =>
                refine ⟨Or.inl ?_, ?_⟩ <;>
                  simp [processRestore, pvrFail, pvrStepsOk, Except.isOk, Except.toBool,
                    phaseInProgress, phaseCompleted]

/-- Concrete environment for the C7 witness: patches succeed, the restic
subprocess fails with stderr. -/
def envC7 : PVREnv :=
  { patch1 := none
    patch2 := none
    getPod := Except.ok ()
    getVolumeDir := Except.ok "pvc-123"
    tempCreds := Except.ok "/tmp/creds"
    resticRun := Except.error ("repo locked", "exit status 1")
    completeRun := Except.ok "" }

/-- Witness for C7: phase `Completed` is terminal (never processed), and on
`envC7` the run patches InProgress and then Failed with a message. -/
theorem C7_pvr_phase_machine_witness :
    (shouldProcessPVR "Completed" = false
      ∧ ∀ (podRes : Except String PodModel) (nodeName : String),
          shouldEnqueuePVR "Completed" podRes nodeName = false)
    ∧ ((processRestore envC7).2.map PVRPatch.phase = [phaseInProgress, phaseCompleted]
        ∨ ∃ m, (processRestore envC7).2
            = [⟨phaseInProgress, none⟩, ⟨phaseFailed, some m⟩])
    ∧ (pvrStepsOk envC7 = true ↔
        (processRestore envC7).2.map PVRPatch.phase = [phaseInProgress, phaseCompleted]) :=
  ⟨C7_pvr_phase_machine.1 "Completed" (by decide) (by decide),
   C7_pvr_phase_machine.2 envC7 rfl rfl⟩

/-- The backup-status update `backup.Status.VolumeBackups[name] = info`
(item_backupper.go lines 493-502), on the association-list model. -/
def recordVolumeBackup (st : BackupSt) (pvName : String) (info : VolumeBackupInfo) :
    BackupSt :=
  { st with volumeBackups := some ((pvName, info) :: st.volumeBackups.getD []) }

/-- C5: `takePVSnapshot` returns nil without creating a snapshot when the
backup's `SnapshotVolumes` flag is explicitly false or the derived volume ID
is empty; otherwise, when snapshot creation and volume info both succeed, it
records `VolumeBackupInfo` (snapshot ID, type, IOPS, zone-label-derived
availability zone) under the PV's name, having passed exactly the two
provider tags `ark.heptio.com/backup` and `ark.heptio.com/pv`. -/
theorem C5_takePVSnapshot (svc : SnapshotSvc) (snapshotVolumes : Option Bool)
    (backupName : String) (pv : ItemTree) (st : BackupSt) :
    (snapshotVolumes = some false →
      takePVSnapshot svc snapshotVolumes backupName pv st = (Except.ok (), st))
    ∧ (snapshotVolumes ≠ some false → svc.getVolumeID pv = Except.ok "" →
      takePVSnapshot svc snapshotVolumes backupName pv st = (Except.ok (), st))
    ∧ (pvTags backupName pv.nameOf
        = [("ark.heptio.com/backup", backupName), ("ark.heptio.com/pv", pv.nameOf)])
    ∧ (pv.labelsOf.find? (fun p => p.1 = zoneLabel) = none →
        lookupLabel pv.labelsOf zoneLabel = "")
    ∧ (∀ volumeID snapshotID volumeType iops,
        snapshotVolumes ≠ some false →
        svc.getVolumeID pv = Except.ok volumeID →
        volumeID ≠ "" →
        svc.createSnapshot volumeID (lookupLabel pv.labelsOf zoneLabel)
            (pvTags backupName pv.nameOf) = Except.ok snapshotID →
        svc.getVolumeInfo volumeID (lookupLabel pv.labelsOf zoneLabel)
            = Except.ok (volumeType, iops) →
        takePVSnapshot svc snapshotVolumes backupName pv st =
          (Except.ok (),
           recordVolumeBackup st pv.nameOf
             ⟨snapshotID, volumeType, iops, lookupLabel pv.labelsOf zoneLabel⟩)) := by
  refine ⟨?_, ?_, rfl, ?_, ?_⟩
  · intro h
    simp [takePVSnapshot, h]
  · intro h hid
    simp [takePVSnapshot, h, hid]
  · intro h
    simp [lookupLabel, h]
  · intro volumeID snapshotID volumeType iops hsv hid hne hcs hvi
    simp [takePVSnapshot, recordVolumeBackup, hsv, hid, hne, hcs, hvi]

/-- Concrete snapshot service for the C5 witness. -/
def svcC5 : SnapshotSvc :=
  { getVolumeID := fun pv => Except.ok ("vol-" ++ pv.nameOf)
    createSnapshot := fun _ _ _ => Except.ok "snap-1"
    getVolumeInfo := fun _ _ => Except.ok ("gp2", some 100) }

/-- Concrete PersistentVolume item for the C5 witness, carrying a zone
label. -/
def pvC5 : ItemTree :=
  ItemTree.node "" "pv-a" "persistentvolumes" "pv-json"
    [(zoneLabel, "us-east-1a")] none none []

/-- Witness for C5: on the all-success service the snapshot info is recorded
under the PV's name. -/
theorem C5_takePVSnapshot_witness :
    takePVSnapshot svcC5 none "b1" pvC5 initialBackupSt =
      (Except.ok (),
       recordVolumeBackup initialBackupSt pvC5.nameOf
         ⟨"snap-1", "gp2", some 100, lookupLabel pvC5.labelsOf zoneLabel⟩) :=
  (C5_takePVSnapshot svcC5 none "b1" pvC5 initialBackupSt).2.2.2.2
    "vol-pv-a" "snap-1" "gp2" (some 100) (by decide) rfl (by decide) rfl rfl

/-- Snapshot service whose `CreateSnapshot` fails, for refuting C4. -/
def svcC4 : SnapshotSvc :=
  { getVolumeID := fun _ => Except.ok "vol-1"
    createSnapshot := fun _ _ _ => Except.error "boom"
    getVolumeInfo := fun _ _ => Except.ok ("gp2", some 100) }

/-- Concrete PersistentVolume item for the C4 counterexample. -/
def pvC4 : ItemTree :=
  ItemTree.node "" "pv-1" "persistentvolumes" "pv-json" [] none none []

/-- Counterexample to C4 as stated: when `CreateSnapshot` fails, nothing at
all is recorded in the backup status's `VolumeBackups` map — the map stays
nil — and the failure surfaces only as the returned error. -/
theorem C4_counterexample :
    (takePVSnapshot svcC4 none "b1" pvC4 initialBackupSt).2.volumeBackups = none
    ∧ (takePVSnapshot svcC4 none "b1" pvC4 initialBackupSt).1
        = Except.error "error creating snapshot: boom" :=
  ⟨rfl, rfl⟩

/-- Helper: an item that passes the include filters, is not yet backed up,
and whose pre hook fails makes `backupItem` return the hook error right
after recording the key, before anything is written. -/
theorem backupItem_preErr (ctx : BackupCtx) (fuel : Nat)
    (ns name grItem content : String) (labels : List (String × String))
    (postErr : Option String) (acts : List (ActionOut ItemTree))
    (gr msg : String) (st : BackupSt)
    (hns : ns ≠ "" → ctx.nsShouldInclude ns = true)
    (hcl : ¬(ns = "" ∧ gr ≠ "namespaces" ∧ ctx.includeClusterResources = some false))
    (hres : ctx.resShouldInclude gr = true)
    (hkey : (⟨gr, ns, name⟩ : ItemKey) ∉ st.backedUpItems) :
    backupItem ctx (fuel+1)
        (ItemTree.node ns name grItem content labels (some msg) postErr acts) gr st
      = (Except.error msg,
         { st with backedUpItems := ⟨gr, ns, name⟩ :: st.backedUpItems }) := by
  have h1 : ¬(ns ≠ "" ∧ ctx.nsShouldInclude ns = false) := by
    rintro ⟨hne, hf⟩
    rw [hns hne] at hf
    simp at hf
  have h3 : ¬(ctx.resShouldInclude gr = false) := by simp [hres]
  simp only [backupItem, ItemTree.nsOf, ItemTree.nameOf, ItemTree.preErrOf]
  rw [if_neg h1, if_neg hcl, if_neg h3, if_neg hkey]

/-- Helper: a hook-free, action-free item (no custom actions registered)
that passes the filters and is not a persistent volume gets exactly one tar
entry, stamped with the clock reading at the write. -/
theorem backupItem_simple (ctx : BackupCtx) (fuel : Nat)
    (ns name grItem content : String) (labels : List (String × String))
    (acts : List (ActionOut ItemTree)) (gr : String) (st : BackupSt)
    (hns : ns ≠ "" → ctx.nsShouldInclude ns = true)
    (hcl : ¬(ns = "" ∧ gr ≠ "namespaces" ∧ ctx.includeClusterResources = some false))
    (hres : ctx.resShouldInclude gr = true)
    (hkey : (⟨gr, ns, name⟩ : ItemKey) ∉ st.backedUpItems)
    (hacts : ctx.actions = [])
    (hpv : gr ≠ "persistentvolumes") :
    backupItem ctx (fuel+2)
        (ItemTree.node ns name grItem content labels none none acts) gr st
      = (Except.ok (),
         { backedUpItems := ⟨gr, ns, name⟩ :: st.backedUpItems,
           entries := st.entries ++
             [⟨⟨gr, ns, name⟩,
               { name := entryPath ⟨gr, ns, name⟩, size := content.length,
                 typeflag := tarTypeReg, mode := 0o755,
                 modTime := ctx.timeAt st.tick }, content⟩],
           volumeBackups := st.volumeBackups,
           tick := st.tick + 1 }) := by
  have h1 : ¬(ns ≠ "" ∧ ctx.nsShouldInclude ns = false) := by
    rintro ⟨hne, hf⟩
    rw [hns hne] at hf
    simp at hf
  have h3 : ¬(ctx.resShouldInclude gr = false) := by simp [hres]
  simp only [backupItem, ItemTree.nsOf, ItemTree.nameOf, ItemTree.preErrOf,
    ItemTree.postErrOf, ItemTree.actsOf, ItemTree.contentOf, ItemTree.labelsOf]
  rw [if_neg h1, if_neg hcl, if_neg h3, if_neg hkey, hacts]
  simp only [runActions, pvPhase]
  rw [if_neg hpv]
  simp

/-- Aggregating a single error (`kubeerrs.NewAggregate` on a one-element
list) yields that error's message. -/
theorem intercalate_singleton (s a : String) : String.intercalate s [a] = a := rfl

/-- Helper: for a hook-free, action-free PersistentVolume item whose
snapshot creation fails, `backupItem` returns the snapshot error as the
item's aggregated error; the state keeps the recorded key but gains no tar
entry and no volume-backup record. -/
theorem backupItem_pv_createErr (ctx : BackupCtx) (fuel : Nat)
    (ns name grItem content : String) (labels : List (String × String))
    (acts : List (ActionOut ItemTree)) (st : BackupSt)
    (svc : SnapshotSvc) (volumeID e : String)
    (hsvc : ctx.snapshotSvc = some svc)
    (hsv : ¬ctx.snapshotVolumes = some false)
    (hns : ns ≠ "" → ctx.nsShouldInclude ns = true)
    (hcl : ¬(ns = "" ∧ "persistentvolumes" ≠ "namespaces"
              ∧ ctx.includeClusterResources = some false))
    (hres : ctx.resShouldInclude "persistentvolumes" = true)
    (hkey : (⟨"persistentvolumes", ns, name⟩ : ItemKey) ∉ st.backedUpItems)
    (hacts : ctx.actions = [])
    (hid : svc.getVolumeID (ItemTree.node ns name grItem content labels none none acts)
            = Except.ok volumeID)
    (hne : volumeID ≠ "")
    (hcs : svc.createSnapshot volumeID (lookupLabel labels zoneLabel)
            (pvTags ctx.backupName name) = Except.error e) :
    backupItem ctx (fuel+2)
        (ItemTree.node ns name grItem content labels none none acts)
        "persistentvolumes" st
      = (Except.error ("error creating snapshot: " ++ e),
         { st with backedUpItems := ⟨"persistentvolumes", ns, name⟩ :: st.backedUpItems }) := by
  have h1 : ¬(ns ≠ "" ∧ ctx.nsShouldInclude ns = false) := by
    rintro ⟨hne, hf⟩
    rw [hns hne] at hf
    simp at hf
  have h3 : ¬(ctx.resShouldInclude "persistentvolumes" = false) := by simp [hres]
  simp only [backupItem, ItemTree.nsOf, ItemTree.nameOf, ItemTree.preErrOf,
    ItemTree.postErrOf, ItemTree.actsOf, ItemTree.contentOf, ItemTree.labelsOf]
  rw [if_neg h1, if_neg hcl, if_neg h3, if_neg hkey, hacts]
  simp only [runActions, pvPhase]
  rw [hsvc]
  simp [takePVSnapshot, ItemTree.nameOf, ItemTree.labelsOf, hsv, hid, hne, hcs,
    intercalate_singleton]

/-- Well-formedness of a written tar entry: regular file, mode 0755, the
canonical archive path, size matching the payload (item_backupper.go lines
217-223). -/
def GoodEntry (e : TarEntry) : Prop :=
  e.hdr.name = entryPath e.key ∧ e.hdr.size = e.data.length
    ∧ e.hdr.typeflag = tarTypeReg ∧ e.hdr.mode = 0o755

/-- The state evolution contract of the backup pipeline: entries only get
appended; the dedup set only grows; every appended entry's key was fresh
when its call started, is recorded afterwards, and its header is
well-formed; and the appended keys are pairwise distinct. -/
def StExtends (st st' : BackupSt) : Prop :=
  ∃ new, st'.entries = st.entries ++ new
    ∧ (∀ k, k ∈ st.backedUpItems → k ∈ st'.backedUpItems)
    ∧ (∀ e ∈ new, e.key ∈ st'.backedUpItems ∧ e.key ∉ st.backedUpItems ∧ GoodEntry e)
    ∧ (new.map TarEntry.key).Nodup

theorem StExtends.rfl (st : BackupSt) : StExtends st st :=
  ⟨[], by simp⟩

theorem StExtends.of_eq {st st' : BackupSt} (he : st'.entries = st.entries)
    (hb : st'.backedUpItems = st.backedUpItems) : StExtends st st' :=
  ⟨[], by simp [he], fun k hk => hb ▸ hk, by simp, by simp⟩

theorem StExtends.grow (st : BackupSt) (k : ItemKey) :
    StExtends st { st with backedUpItems := k :: st.backedUpItems } :=
  ⟨[], by simp, fun k' hk' => List.mem_cons_of_mem _ hk', by simp, by simp⟩

theorem StExtends.trans {st1 st2 st3 : BackupSt}
    (h12 : StExtends st1 st2) (h23 : StExtends st2 st3) : StExtends st1 st3 := by
  obtain ⟨n1, he1, hb1, hk1, hd1⟩ := h12
  obtain ⟨n2, he2, hb2, hk2, hd2⟩ := h23
  refine ⟨n1 ++ n2, ?_, ?_, ?_, ?_⟩
  · rw [he2, he1, List.append_assoc]
  · exact fun k hk => hb2 k (hb1 k hk)
  · intro e he
    rcases List.mem_append.mp he with h | h
    · obtain ⟨ha, hb, hc⟩ := hk1 e h
      exact ⟨hb2 _ ha, hb, hc⟩
    · obtain ⟨ha, hb, hc⟩ := hk2 e h
      exact ⟨ha, fun hmem => hb (hb1 _ hmem), hc⟩
  · rw [List.map_append, List.nodup_append]
    refine ⟨hd1, hd2, ?_⟩
    intro k hkm1 hkm2
    obtain ⟨e1, he1m, hke1⟩ := List.mem_map.mp hkm1
    obtain ⟨e2, he2m, hke2⟩ := List.mem_map.mp hkm2
    exact (hk2 e2 he2m).2.1 (hke2 ▸ hke1 ▸ (hk1 e1 he1m).1)

/-- Appending one well-formed entry for a key that was fresh before the
call recorded it (item_backupper.go line 170) preserves the evolution
contract relative to the pre-recording state. -/
theorem StExtends.write {st stW : BackupSt} (key : ItemKey) (content : String)
    (tmod : Nat)
    (h : StExtends { st with backedUpItems := key :: st.backedUpItems } stW)
    (hkeyst : key ∉ st.backedUpItems) :
    StExtends st
      { stW with
          entries := stW.entries ++
            [⟨key, { name := entryPath key, size := content.length,
                     typeflag := tarTypeReg, mode := 0o755, modTime := tmod }, content⟩],
          tick := stW.tick + 1 } := by
  obtain ⟨newA, heA, hbA, hkA, hdA⟩ := h
  have hkeyW : key ∈ stW.backedUpItems := hbA key (List.mem_cons_self _ _)
  refine ⟨newA ++
    [⟨key, { name := entryPath key, size := content.length,
             typeflag := tarTypeReg, mode := 0o755, modTime := tmod }, content⟩],
    ?_, ?_, ?_, ?_⟩
  · simp only at heA
    simp [heA]
  · intro k hk
    exact hbA k (List.mem_cons_of_mem _ hk)
  · intro e he
    rcases List.mem_append.mp he with hmem | hmem
    · obtain ⟨ha, hb, hc⟩ := hkA e hmem
      exact ⟨ha, fun hm => hb (List.mem_cons_of_mem _ hm), hc⟩
    · rw [List.mem_singleton.mp hmem]
      exact ⟨hkeyW, hkeyst, Eq.refl _, Eq.refl _, Eq.refl _, Eq.refl _⟩
  · rw [List.map_append, List.nodup_append]
    refine ⟨hdA, by simp, ?_⟩
    intro k hkm1 hkm2
    obtain ⟨e1, he1m, hke1⟩ := List.mem_map.mp hkm1
    simp at hkm2
    exact (hkA e1 he1m).2.1 (by rw [hke1, hkm2]; exact List.mem_cons_self _ _)

/-- `takePVSnapshot` never touches the tar entries, the dedup set or the
clock; it only updates the volume-backups map. -/
theorem takePVSnapshot_preserves (svc : SnapshotSvc) (sv : Option Bool)
    (bn : String) (pv : ItemTree) (st : BackupSt) :
    (takePVSnapshot svc sv bn pv st).2.entries = st.entries
    ∧ (takePVSnapshot svc sv bn pv st).2.backedUpItems = st.backedUpItems
    ∧ (takePVSnapshot svc sv bn pv st).2.tick = st.tick := by
  unfold takePVSnapshot
  by_cases hsv : sv = some false
  · simp [hsv]
  · rw [if_neg hsv]
    cases hid : svc.getVolumeID pv with
    | error e => simp
    | ok vid =>
      dsimp only
      by_cases hv : vid = ""
      · simp [hv]
      · rw [if_neg hv]
        cases hcs : svc.createSnapshot vid (lookupLabel pv.labelsOf zoneLabel)
            (pvTags bn pv.nameOf) with
        | error e => simp
        | ok sid =>
          cases hvi : svc.getVolumeInfo vid (lookupLabel pv.labelsOf zoneLabel) with
          | error e => simp
          | ok info => simp

theorem pvPhase_preserves (ctx : BackupCtx) (gr : String) (item : ItemTree)
    (stErrs : BackupSt × List String) :
    (pvPhase ctx gr item stErrs).1.entries = stErrs.1.entries
    ∧ (pvPhase ctx gr item stErrs).1.backedUpItems = stErrs.1.backedUpItems := by
  unfold pvPhase
  split
  · cases hsvc : ctx.snapshotSvc with
    | none => simp
    | some svc =>
      cases hT : takePVSnapshot svc ctx.snapshotVolumes ctx.backupName item stErrs.1 with
      | mk r st' =>
        have hp := takePVSnapshot_preserves svc ctx.snapshotVolumes ctx.backupName item stErrs.1
        rw [hT] at hp
        cases r <;> simp_all
  · simp

theorem backup_extends (fuel : Nat) :
    (∀ ctx item gr st, StExtends st (backupItem ctx fuel item gr st).2)
    ∧ (∀ ctx acts outs gr ns name labels st,
        StExtends st (runActions ctx fuel acts outs gr ns name labels st).2)
    ∧ (∀ ctx lst st, StExtends st (runAdditional ctx fuel lst st).2) := by
  induction fuel with
  | zero =>
    exact ⟨fun ctx item gr st => StExtends.rfl st,
           fun ctx acts outs gr ns name labels st => StExtends.rfl st,
           fun ctx lst st => StExtends.rfl st⟩
  | succ n ih =>
    obtain ⟨ihB, ihA, ihD⟩ := ih
    refine ⟨?_, ?_, ?_⟩
    · intro ctx item gr st
      cases item with
      | node ns name grItem content labels preErr postErr acts =>
        simp only [backupItem, ItemTree.nsOf, ItemTree.nameOf, ItemTree.preErrOf,
          ItemTree.postErrOf, ItemTree.actsOf, ItemTree.contentOf, ItemTree.labelsOf]
        split
        · exact StExtends.rfl st
        split
        · exact StExtends.rfl st
        split
        · exact StExtends.rfl st
        split
        · exact StExtends.rfl st
        rename_i hkey
        cases preErr with
        | some msg => exact StExtends.grow st _
        | none =>
          dsimp only
          have hst1 : StExtends st
              { st with backedUpItems := (⟨gr, ns, name⟩ : ItemKey) :: st.backedUpItems } :=
            StExtends.grow st _
          have hAex := ihA ctx ctx.actions acts gr ns name labels
            { st with backedUpItems := (⟨gr, ns, name⟩ : ItemKey) :: st.backedUpItems }
          split
          · exact StExtends.trans hst1 (StExtends.trans hAex
              (StExtends.of_eq (pvPhase_preserves ctx gr _ _).1 (pvPhase_preserves ctx gr _ _).2))
          · exact StExtends.write _ content _ (StExtends.trans hAex
              (StExtends.of_eq (pvPhase_preserves ctx gr _ _).1 (pvPhase_preserves ctx gr _ _).2)) hkey
    · intro ctx acts outs gr ns name labels st
      cases acts with
      | nil => exact StExtends.rfl st
      | cons act rest =>
        simp only [runActions]
        split
        · exact ihA ctx rest outs gr ns name labels st
        split
        · exact ihA ctx rest outs gr ns name labels st
        split
        · exact ihA ctx rest outs gr ns name labels st
        cases outs with
        | nil => exact ihA ctx rest [] gr ns name labels st
        | cons out outsRest =>
          cases out with
          | fails msg => exact StExtends.rfl st
          | done additional =>
            dsimp only
            have hDex := ihD ctx additional st
            cases hD : runAdditional ctx n additional st with
            | mk dres dst =>
              rw [hD] at hDex
              cases dres with
              | error e => exact hDex
              | ok u => exact StExtends.trans hDex (ihA ctx rest outsRest gr ns name labels dst)
    · intro ctx lst st
      cases lst with
      | nil => exact StExtends.rfl st
      | cons fetch rest =>
        simp only [runAdditional]
        cases fetch with
        | error e => exact StExtends.rfl st
        | ok sub =>
          dsimp only
          have hBex := ihB ctx sub sub.grOf st
          cases hB : backupItem ctx n sub sub.grOf st with
          | mk bres bst =>
            rw [hB] at hBex
            cases bres with
            | error e => exact hBex
            | ok u => exact StExtends.trans hBex (ihD ctx rest bst)

/-- The spec-modelled walker inherits the state evolution contract: a whole
backup run only appends entries with fresh, pairwise-distinct keys. -/
theorem backupAllItems_extends (ctx : BackupCtx) (fuel : Nat) :
    ∀ (items : List (ItemTree × String)) (st : BackupSt),
      StExtends st (backupAllItems ctx fuel items st).2 := by
  intro items
  induction items with
  | nil => intro st; exact StExtends.rfl st
  | cons hd tl ih =>
    intro st
    obtain ⟨item, gr⟩ := hd
    simp only [backupAllItems]
    exact StExtends.trans ((backup_extends fuel).1 ctx item gr st)
      (ih (backupItem ctx fuel item gr st).2)

/-- C1: an item whose (resource, namespace, name) key is already in
`backedUpItems` is skipped — `backupItem` returns nil and leaves the state
untouched — and a whole backup run (the walker over any item list, including
recursive custom-action items) produces tar entries with pairwise-distinct
keys. -/
theorem C1_dedup (ctx : BackupCtx) (fuel : Nat) (item : ItemTree) (gr : String)
    (st : BackupSt) (items : List (ItemTree × String)) :
    ((⟨gr, item.nsOf, item.nameOf⟩ : ItemKey) ∈ st.backedUpItems →
      backupItem ctx (fuel+1) item gr st = (Except.ok (), st))
    ∧ ((backupAllItems ctx fuel items initialBackupSt).2.entries.map TarEntry.key).Nodup := by
  constructor
  · intro hmem
    cases item with
    | node ns name grItem content labels preErr postErr acts =>
      simp only [ItemTree.nsOf, ItemTree.nameOf] at hmem
      simp only [backupItem, ItemTree.nsOf, ItemTree.nameOf]
      split
      · rfl
      split
      · rfl
      split
      · rfl
      rfl
  · obtain ⟨new, he, hb, hk, hd⟩ := backupAllItems_extends ctx fuel items initialBackupSt
    rw [he]
    simpa [initialBackupSt] using hd

/-- The shared concrete backup context for witnesses: all filters include
everything, no actions, no snapshot service, identity clock. -/
def ctxEx : BackupCtx :=
  { backupName := "b1"
    nsShouldInclude := fun _ => true
    resShouldInclude := fun _ => true
    includeClusterResources := none
    snapshotVolumes := none
    actions := []
    snapshotSvc := none
    timeAt := fun t => t }

/-- A plain namespaced config map item. -/
def itemA : ItemTree := ItemTree.node "default" "cm-a" "configmaps" "a-body" [] none none []

/-- A second plain namespaced config map item. -/
def itemB : ItemTree := ItemTree.node "default" "cm-b" "configmaps" "b-body" [] none none []

/-- A state in which `itemA`'s key has already been backed up. -/
def stSeen : BackupSt :=
  { backedUpItems := [⟨"configmaps", "default", "cm-a"⟩], entries := [],
    volumeBackups := none, tick := 0 }

/-- Witness for C1: the already-seen item is skipped with the state intact,
and a two-item run yields distinct entry keys. -/
theorem C1_dedup_witness :
    ((⟨"configmaps", itemA.nsOf, itemA.nameOf⟩ : ItemKey) ∈ stSeen.backedUpItems
      ∧ backupItem ctxEx 3 itemA "configmaps" stSeen = (Except.ok (), stSeen))
    ∧ ((backupAllItems ctxEx 2 [(itemA, "configmaps"), (itemB, "configmaps")]
          initialBackupSt).2.entries.map TarEntry.key).Nodup :=
  ⟨⟨by decide,
    (C1_dedup ctxEx 2 itemA "configmaps" stSeen
      [(itemA, "configmaps"), (itemB, "configmaps")]).1 (by decide)⟩,
   (C1_dedup ctxEx 2 itemA "configmaps" stSeen
      [(itemA, "configmaps"), (itemB, "configmaps")]).2⟩

/-- C2: an item whose pre hook fails is aborted — `backupItem` returns the
hook error before writing anything, so no tar entry with the item's key is
ever in the archive — while the walker records the error and continues with
the remaining items. -/
theorem C2_prehook_failure (ctx : BackupCtx) (fuel : Nat)
    (ns name grItem content : String) (labels : List (String × String))
    (postErr : Option String) (acts : List (ActionOut ItemTree))
    (gr msg : String) (st : BackupSt) (rest : List (ItemTree × String))
    (hns : ns ≠ "" → ctx.nsShouldInclude ns = true)
    (hcl : ¬(ns = "" ∧ gr ≠ "namespaces" ∧ ctx.includeClusterResources = some false))
    (hres : ctx.resShouldInclude gr = true)
    (hkey : (⟨gr, ns, name⟩ : ItemKey) ∉ st.backedUpItems) :
    backupItem ctx (fuel+1)
        (ItemTree.node ns name grItem content labels (some msg) postErr acts) gr st
      = (Except.error msg,
         { st with backedUpItems := ⟨gr, ns, name⟩ :: st.backedUpItems })
    ∧ (backupAllItems ctx (fuel+1)
         ((ItemTree.node ns name grItem content labels (some msg) postErr acts, gr)
           :: rest) st).1
        = msg :: (backupAllItems ctx (fuel+1) rest
            { st with backedUpItems := ⟨gr, ns, name⟩ :: st.backedUpItems }).1
    ∧ (∀ e ∈ (backupAllItems ctx (fuel+1)
         ((ItemTree.node ns name grItem content labels (some msg) postErr acts, gr)
           :: rest) st).2.entries,
        e.key = ⟨gr, ns, name⟩ → e ∈ st.entries) := by
  have h := backupItem_preErr ctx fuel ns name grItem content labels postErr acts gr msg st
    hns hcl hres hkey
  have hcons2 : (backupAllItems ctx (fuel+1)
      ((ItemTree.node ns name grItem content labels (some msg) postErr acts, gr)
        :: rest) st).2
      = (backupAllItems ctx (fuel+1) rest
          { st with backedUpItems := ⟨gr, ns, name⟩ :: st.backedUpItems }).2 := by
    simp only [backupAllItems]
    rw [h]
  refine ⟨h, ?_, ?_⟩
  · simp only [backupAllItems]
    rw [h]
  · intro e he hkeyE
    rw [hcons2] at he
    obtain ⟨new, hee, hb, hk, hd⟩ := backupAllItems_extends ctx (fuel+1) rest
      { st with backedUpItems := ⟨gr, ns, name⟩ :: st.backedUpItems }
    rw [hee] at he
    rcases List.mem_append.mp he with hm | hm
    · exact hm
    · exfalso
      apply (hk e hm).2.1
      rw [hkeyE]
      exact List.mem_cons_self _ _

/-- A pod item whose pre hook fails. -/
def itemPre : ItemTree :=
  ItemTree.node "default" "pod-x" "pods" "pod-body" []
    (some "hook failed: exit status 1") none []

/-- Witness for C2: on a two-item run the failing pre hook yields exactly
one recorded error, the failed item writes nothing, and the other item is
still backed up. -/
theorem C2_prehook_failure_witness :
    backupItem ctxEx 3 itemPre "pods" initialBackupSt
      = (Except.error "hook failed: exit status 1",
         { initialBackupSt with backedUpItems := [⟨"pods", "default", "pod-x"⟩] })
    ∧ (backupAllItems ctxEx 3 [(itemPre, "pods"), (itemB, "configmaps")]
         initialBackupSt).1
        = ["hook failed: exit status 1"]
    ∧ ((backupAllItems ctxEx 3 [(itemPre, "pods"), (itemB, "configmaps")]
         initialBackupSt).2.entries.map TarEntry.key)
        = [⟨"configmaps", "default", "cm-b"⟩] := by
  have h := C2_prehook_failure ctxEx 2 "default" "pod-x" "pods" "pod-body" [] none []
    "pods" "hook failed: exit status 1" initialBackupSt [(itemB, "configmaps")]
    (fun _ => rfl) (by decide) rfl (by decide)
  refine ⟨h.1, ?_, by decide⟩
  rw [show (3 : Nat) = 2 + 1 from rfl]
  simp only [itemPre]
  rw [h.2.1]
  decide

/-- C3 (amended): every tar entry a backup writes is a regular file
(TypeReg) with mode 0755 at the canonical
`resources/<groupResource>/{namespaces/<ns>,cluster}/<name>.json` path and a
size matching its payload; but its ModTime is the `time.Now()` reading taken
when that entry is written — one fresh reading per entry, not one shared
backup-start timestamp — while the (unused by this path)
`tarWriterItemStorage.Write` stamps its fixed `modTime` field on every entry
it writes. -/
theorem C3_amended (ctx : BackupCtx) (fuel : Nat) (item : ItemTree) (gr : String)
    (st : BackupSt) (ns name grItem content : String)
    (labels : List (String × String)) (acts : List (ActionOut ItemTree))
    (t : TarWriterItemStorage) :
    (∃ new, (backupItem ctx fuel item gr st).2.entries = st.entries ++ new
        ∧ ∀ e ∈ new, e.hdr.typeflag = tarTypeReg ∧ e.hdr.mode = 0o755
            ∧ e.hdr.name = entryPath e.key ∧ e.hdr.size = e.data.length)
    ∧ ((ns ≠ "" → ctx.nsShouldInclude ns = true) →
       ¬(ns = "" ∧ gr ≠ "namespaces" ∧ ctx.includeClusterResources = some false) →
       ctx.resShouldInclude gr = true →
       (⟨gr, ns, name⟩ : ItemKey) ∉ st.backedUpItems →
       ctx.actions = [] →
       gr ≠ "persistentvolumes" →
       (backupItem ctx (fuel+2)
           (ItemTree.node ns name grItem content labels none none acts) gr st).2.entries
         = st.entries ++
             [⟨⟨gr, ns, name⟩,
               { name := entryPath ⟨gr, ns, name⟩, size := content.length,
                 typeflag := tarTypeReg, mode := 0o755,
                 modTime := ctx.timeAt st.tick }, content⟩])
    ∧ (∀ path data : String,
        t.write path data
          = { name := path, size := data.length, typeflag := tarTypeReg,
              mode := 0o755, modTime := t.modTime }) := by
  refine ⟨?_, ?_, fun path data => rfl⟩
  · obtain ⟨new, he, hb, hk, hd⟩ := (backup_extends fuel).1 ctx item gr st
    refine ⟨new, he, ?_⟩
    intro e hmem
    obtain ⟨hn, hs, htf, hm⟩ := (hk e hmem).2.2
    exact ⟨htf, hm, hn, hs⟩
  · intro hns hcl hres hkey hacts hpv
    rw [backupItem_simple ctx fuel ns name grItem content labels acts gr st
      hns hcl hres hkey hacts hpv]

/-- Counterexample to C3 as stated: in a two-item backup under the identity
clock the two tar entries carry distinct ModTimes (0 and 1), so the entries
of one backup do not all share a single timestamp equal to the backup's
start. -/
theorem C3_counterexample :
    ((backupAllItems ctxEx 2 [(itemA, "configmaps"), (itemB, "configmaps")]
        initialBackupSt).2.entries.map (fun e => e.hdr.modTime)) = [0, 1]
    ∧ ¬(∀ e1 ∈ (backupAllItems ctxEx 2 [(itemA, "configmaps"), (itemB, "configmaps")]
          initialBackupSt).2.entries,
        ∀ e2 ∈ (backupAllItems ctxEx 2 [(itemA, "configmaps"), (itemB, "configmaps")]
          initialBackupSt).2.entries,
        e1.hdr.modTime = e2.hdr.modTime) := by
  constructor
  · decide
  · decide

/-- Witness for C3 (amended): a simple namespaced item yields exactly the
canonical entry stamped with the clock reading at its write. -/
theorem C3_amended_witness :
    (backupItem ctxEx 3
        (ItemTree.node "default" "cm-a" "configmaps" "a-body" [] none none [])
        "configmaps" initialBackupSt).2.entries
      = initialBackupSt.entries ++
          [⟨⟨"configmaps", "default", "cm-a"⟩,
            { name := entryPath ⟨"configmaps", "default", "cm-a"⟩,
              size := "a-body".length, typeflag := tarTypeReg, mode := 0o755,
              modTime := ctxEx.timeAt initialBackupSt.tick }, "a-body"⟩] :=
  (C3_amended ctxEx 1 itemA "configmaps" initialBackupSt "default" "cm-a" "configmaps"
      "a-body" [] [] ⟨5⟩).2.1
    (fun _ => rfl) (by decide) rfl (by decide) rfl (by decide)

/-- C4 (amended): when `CreateSnapshot` fails for a PersistentVolume,
`takePVSnapshot` returns the error without recording anything in the backup
status's `VolumeBackups` map; `backupItem` aggregates that error for the
item (which is therefore not written to the archive), and the backup
continues with the remaining items, completing with the error collected. -/
theorem C4_snapshot_error_aggregated (ctx : BackupCtx) (fuel : Nat)
    (ns name grItem content : String) (labels : List (String × String))
    (acts : List (ActionOut ItemTree)) (st : BackupSt)
    (svc : SnapshotSvc) (volumeID e : String) (rest : List (ItemTree × String))
    (hsvc : ctx.snapshotSvc = some svc)
    (hsv : ¬ctx.snapshotVolumes = some false)
    (hns : ns ≠ "" → ctx.nsShouldInclude ns = true)
    (hcl : ¬(ns = "" ∧ "persistentvolumes" ≠ "namespaces"
              ∧ ctx.includeClusterResources = some false))
    (hres : ctx.resShouldInclude "persistentvolumes" = true)
    (hkey : (⟨"persistentvolumes", ns, name⟩ : ItemKey) ∉ st.backedUpItems)
    (hacts : ctx.actions = [])
    (hid : svc.getVolumeID (ItemTree.node ns name grItem content labels none none acts)
            = Except.ok volumeID)
    (hne : volumeID ≠ "")
    (hcs : svc.createSnapshot volumeID (lookupLabel labels zoneLabel)
            (pvTags ctx.backupName name) = Except.error e) :
    takePVSnapshot svc ctx.snapshotVolumes ctx.backupName
        (ItemTree.node ns name grItem content labels none none acts) st
      = (Except.error ("error creating snapshot: " ++ e), st)
    ∧ backupItem ctx (fuel+2)
        (ItemTree.node ns name grItem content labels none none acts)
        "persistentvolumes" st
      = (Except.error ("error creating snapshot: " ++ e),
         { st with backedUpItems := ⟨"persistentvolumes", ns, name⟩ :: st.backedUpItems })
    ∧ (backupAllItems ctx (fuel+2)
        ((ItemTree.node ns name grItem content labels none none acts,
          "persistentvolumes") :: rest) st).1
      = ("error creating snapshot: " ++ e)
          :: (backupAllItems ctx (fuel+2) rest
              { st with backedUpItems :=
                  ⟨"persistentvolumes", ns, name⟩ :: st.backedUpItems }).1
    ∧ (backupAllItems ctx (fuel+2)
        ((ItemTree.node ns name grItem content labels none none acts,
          "persistentvolumes") :: rest) st).2
      = (backupAllItems ctx (fuel+2) rest
          { st with backedUpItems :=
              ⟨"persistentvolumes", ns, name⟩ :: st.backedUpItems }).2 := by
  have hb := backupItem_pv_createErr ctx fuel ns name grItem content labels acts st
    svc volumeID e hsvc hsv hns hcl hres hkey hacts hid hne hcs
  refine ⟨?_, hb, ?_, ?_⟩
  · simp [takePVSnapshot, ItemTree.nameOf, ItemTree.labelsOf, hsv, hid, hne, hcs]
  · simp only [backupAllItems]
    rw [hb]
  · simp only [backupAllItems]
    rw [hb]

/-- The witness context for C4: as `ctxEx` but with the failing snapshot
service installed. -/
def ctxC4 : BackupCtx := { ctxEx with snapshotSvc := some svcC4 }

/-- Witness for C4 (amended): the create failure becomes the PV item's
aggregated error, the PV is not written, and the second item of the run is
still backed up. -/
theorem C4_snapshot_error_aggregated_witness :
    backupItem ctxC4 3 pvC4 "persistentvolumes" initialBackupSt
      = (Except.error "error creating snapshot: boom",
         { initialBackupSt with
             backedUpItems := [⟨"persistentvolumes", "", "pv-1"⟩] })
    ∧ (backupAllItems ctxC4 3 [(pvC4, "persistentvolumes"), (itemB, "configmaps")]
        initialBackupSt).1
      = ["error creating snapshot: boom"]
    ∧ ((backupAllItems ctxC4 3 [(pvC4, "persistentvolumes"), (itemB, "configmaps")]
        initialBackupSt).2.entries.map TarEntry.key)
      = [⟨"configmaps", "default", "cm-b"⟩] := by
  have h := C4_snapshot_error_aggregated ctxC4 1 "" "pv-1" "persistentvolumes" "pv-json"
    [] [] initialBackupSt svcC4 "vol-1" "boom" [(itemB, "configmaps")]
    rfl (by decide) (fun hne => absurd rfl hne) (by decide) rfl (by decide) rfl rfl
    (by decide) rfl
  refine ⟨h.2.1, ?_, by decide⟩
  rw [show (3 : Nat) = 1 + 2 from rfl]
  simp only [pvC4]
  rw [h.2.2.1]
  decide

/-- C6: a cluster-scoped item is skipped outright when the backup's
`IncludeClusterResources` is explicitly false — unless its group resource is
`namespaces`, in which case the item is still backed up (the check does not
apply, and with everything else ordinary the tar entry is written). -/
theorem C6_cluster_scoped_skip (ctx : BackupCtx) (fuel : Nat) (item : ItemTree)
    (gr name grItem content : String) (acts : List (ActionOut ItemTree))
    (st : BackupSt) :
    (item.nsOf = "" → ctx.includeClusterResources = some false → gr ≠ "namespaces" →
      backupItem ctx (fuel+1) item gr st = (Except.ok (), st))
    ∧ (ctx.includeClusterResources = some false →
       ctx.resShouldInclude "namespaces" = true →
       ctx.actions = [] →
       (⟨"namespaces", "", name⟩ : ItemKey) ∉ st.backedUpItems →
       backupItem ctx (fuel+2)
           (ItemTree.node "" name grItem content [] none none acts) "namespaces" st
         = (Except.ok (),
            { backedUpItems := ⟨"namespaces", "", name⟩ :: st.backedUpItems,
              entries := st.entries ++
                [⟨⟨"namespaces", "", name⟩,
                  { name := entryPath ⟨"namespaces", "", name⟩,
                    size := content.length, typeflag := tarTypeReg, mode := 0o755,
                    modTime := ctx.timeAt st.tick }, content⟩],
              volumeBackups := st.volumeBackups,
              tick := st.tick + 1 })) := by
  constructor
  · intro hns hicr hgr
    cases item with
    | node ns nm grItem2 content2 labels2 preErr postErr acts2 =>
      simp only [ItemTree.nsOf] at hns
      subst hns
      simp only [backupItem, ItemTree.nsOf, ItemTree.nameOf]
      rw [if_neg (by simp), if_pos ⟨trivial, hgr, hicr⟩]
  · intro hicr hres hacts hkey
    exact backupItem_simple ctx fuel "" name grItem content [] acts "namespaces" st
      (fun h => absurd rfl h) (by simp) hres hkey hacts (by decide)

/-- The witness context for C6: everything included except that
`IncludeClusterResources` is explicitly false. -/
def ctxC6 : BackupCtx := { ctxEx with includeClusterResources := some false }

/-- A cluster-scoped non-namespace item. -/
def itemCluster : ItemTree :=
  ItemTree.node "" "my-cr" "customthings" "cr-body" [] none none []

/-- Witness for C6: the cluster-scoped item is skipped with the state
intact, while a namespace object is still written. -/
theorem C6_cluster_scoped_skip_witness :
    backupItem ctxC6 3 itemCluster "customthings" initialBackupSt
      = (Except.ok (), initialBackupSt)
    ∧ backupItem ctxC6 3
        (ItemTree.node "" "ns-1" "namespaces" "ns-body" [] none none [])
        "namespaces" initialBackupSt
      = (Except.ok (),
         { backedUpItems := [⟨"namespaces", "", "ns-1"⟩],
           entries := [⟨⟨"namespaces", "", "ns-1"⟩,
             { name := entryPath ⟨"namespaces", "", "ns-1"⟩,
               size := "ns-body".length, typeflag := tarTypeReg, mode := 0o755,
               modTime := ctxC6.timeAt 0 }, "ns-body"⟩],
           volumeBackups := none,
           tick := 1 }) :=
  ⟨(C6_cluster_scoped_skip ctxC6 2 itemCluster "customthings" "x" "x" "x" []
      initialBackupSt).1 rfl rfl (by decide),
   (C6_cluster_scoped_skip ctxC6 1
      (ItemTree.node "" "ns-1" "namespaces" "ns-body" [] none none [])
      "namespaces" "ns-1" "namespaces" "ns-body" [] initialBackupSt).2
     rfl rfl rfl (by decide)⟩
